import Mathlib

/-!
Verification of the OpenClaw guardrail pipeline utilities and stage handlers.

The definitions below are a shallow embedding of the TypeScript sources:
  - `src/plugins/guardrails-utils.ts` (shared content extraction, tool-result
    manipulation and stage-configuration helpers),
  - `extensions/gpt-oss-safeguard/index.ts` (the GPT-OSS-Safeguard plugin:
    response parsing, evaluator wrapper and the four stage hooks),
  - `extensions/llamaguard/index.ts` (`parseLlamaGuardResponse`),
  - the Gray Swan plugin (`resolveGrayswanThreshold`, monitor-response
    evaluation and the `before_request` hook).

JavaScript runtime values that flow through these functions (message contents,
tool results, parsed JSON) are modelled by the inductive `JValue`; JavaScript
strings by Lean `String`, with the handful of string operations the source
uses (trim, toLowerCase, split, join, startsWith, includes) re-implemented
structurally over `List Char` so that every definition evaluates inside the
kernel. Asynchronous evaluator calls are modelled by an explicit outcome value
(`ModelCallOutcome` / `GrayswanOutcome`): a handler is a pure function of its
event and of the outcome its backend call would produce, and thrown exceptions
are an `Except` error. Logging is modelled by returning the list of warning
messages a run emits.
-/

namespace OpenClaw

/-! ### Character and string primitives

JavaScript string helpers, re-implemented structurally. A few characters are
spelled via `Char.ofNat` (34 = double quote, 39 = apostrophe, 92 = backslash,
123/125 = curly braces). -/

def quoteChar : Char := Char.ofNat 34

def apostChar : Char := Char.ofNat 39

def backslashChar : Char := Char.ofNat 92

def lcurlChar : Char := Char.ofNat 123

def rcurlChar : Char := Char.ofNat 125

/-- Whitespace model for JS `String.prototype.trim` and the regex class `\s`
(the ASCII part; the exotic Unicode space code points do not occur here). -/
def jsWsChar (c : Char) : Bool := c.isWhitespace

def trimCharList (cs : List Char) : List Char :=
  ((cs.dropWhile jsWsChar).reverse.dropWhile jsWsChar).reverse

/-- JS `s.trim()`. -/
def jsTrim (s : String) : String := ⟨trimCharList s.data⟩

/-- JS `s.toLowerCase()` (ASCII case folding, which is all the source needs). -/
def jsToLower (s : String) : String := ⟨s.data.map Char.toLower⟩

/-- JS `s.split("\n")` (always yields at least one piece). -/
def splitNl : List Char → List (List Char)
  | [] => [[]]
  | c :: tl =>
    match splitNl tl with
    | [] => [[]]
    | l :: ls => if c = '\n' then [] :: l :: ls else (c :: l) :: ls

/-- JS `s.split(",")`. -/
def splitComma : List Char → List (List Char)
  | [] => [[]]
  | c :: tl =>
    match splitComma tl with
    | [] => [[]]
    | l :: ls => if c = ',' then [] :: l :: ls else (c :: l) :: ls

/-- JS `parts.join(sep)`. -/
def joinSep (sep : String) : List String → String
  | [] => ""
  | [x] => x
  | x :: xs => x ++ sep ++ joinSep sep xs

/-- JS `s.startsWith(pre)`. -/
def jsStartsWith (s pre : String) : Bool := pre.data.isPrefixOf s.data

/-- Does `needle` occur as a contiguous segment of `hay` (JS `includes`)? -/
def segOccurs (needle : List Char) : List Char → Bool
  | [] => needle.isEmpty
  | c :: tl => needle.isPrefixOf (c :: tl) || segOccurs needle tl

/-! ### The JavaScript value model

`JValue` models the JSON-like runtime values the guardrail code manipulates.
`undefined` models the JS value of the same name (also the result of reading an absent property).
Numbers are kept in mantissa–exponent form `m * 10 ^ e`, exactly as a JSON
numeral denotes them. `bigint` stands for the values `JSON.stringify` throws
on (the source only meets such values through caught exceptions). -/

inductive JValue where
  | undefined
  | null
  | bool (b : Bool)
  | num (m : Int) (e : Int)
  | str (s : String)
  | bigint (n : Int)
  | arr (elems : List JValue)
  | obj (fields : List (String × JValue))

/-- Property read on an object's field list: absent keys read as `undefined`. -/
def jlookup : List (String × JValue) → String → JValue
  | [], _ => .undefined
  | (k, v) :: tl, key => if k = key then v else jlookup tl key

/-- Key-presence lookup (models the JS `in` operator, which sees a property
whose stored value is `undefined`). -/
def jlookupOpt : List (String × JValue) → String → Option JValue
  | [], _ => none
  | (k, v) :: tl, key => if k = key then some v else jlookupOpt tl key

/-- JS property access `v.key` for the shapes that occur in the source
(property reads on primitives yield `undefined`; the sites that would throw on
`null`/`undefined` handle those cases explicitly before calling this). -/
def jget : JValue → String → JValue
  | .obj fields, key => jlookup fields key
  | _, _ => .undefined

/-- Overwrite key `k` in place (keeping its position) or append it, which is
how a JS object spread followed by an override behaves for unique keys. -/
def objSetFields : List (String × JValue) → String → JValue → List (String × JValue)
  | [], key, v => [(key, v)]
  | (k, w) :: tl, key, v =>
    if k = key then (key, v) :: tl else (k, w) :: objSetFields tl key v

/-- JS truthiness of a value. -/
def jsTruthy : JValue → Bool
  | .undefined => false
  | .null => false
  | .bool b => b
  | .num m _ => m ≠ 0
  | .str s => s ≠ ""
  | .bigint n => n ≠ 0
  | .arr _ => true
  | .obj _ => true

/-- JS `typeof v === "object"` (true for objects, arrays and `null`). -/
def jsTypeofObject : JValue → Bool
  | .null => true
  | .arr _ => true
  | .obj _ => true
  | _ => false

def isUndefB : JValue → Bool
  | .undefined => true
  | _ => false

/-- JS nullish test (`v ?? w` picks `w` exactly when `v` is nullish). -/
def jsNullish : JValue → Bool
  | .undefined => true
  | .null => true
  | _ => false

def jsCoalesce (a b : JValue) : JValue := if jsNullish a then b else a

/-! ### JSON serialization (`JSON.stringify`)

`none` models a thrown `TypeError` (for `bigint`) and the `undefined` result
(for a top-level `undefined`); inside arrays `undefined` serializes as
`null`, inside objects it makes the key disappear. -/

def hexDigit (n : Nat) : Char :=
  if n < 10 then Char.ofNat (48 + n) else Char.ofNat (87 + n)

def hex4 (n : Nat) : List Char :=
  [hexDigit (n / 4096 % 16), hexDigit (n / 256 % 16), hexDigit (n / 16 % 16), hexDigit (n % 16)]

def jsonEscapeChar (c : Char) : List Char :=
  if c = quoteChar then [backslashChar, quoteChar]
  else if c = backslashChar then [backslashChar, backslashChar]
  else if c = '\n' then [backslashChar, 'n']
  else if c = '\r' then [backslashChar, 'r']
  else if c = '\t' then [backslashChar, 't']
  else if c.toNat = 8 then [backslashChar, 'b']
  else if c.toNat = 12 then [backslashChar, 'f']
  else if c.toNat < 32 then backslashChar :: 'u' :: hex4 c.toNat
  else [c]

def jsonQuote (s : String) : String :=
  ⟨quoteChar :: s.data.foldr (fun c acc => jsonEscapeChar c ++ acc) [quoteChar]⟩

def natDigits (n : Nat) : String := Nat.repr n

def intRepr : Int → String
  | .ofNat n => natDigits n
  | .negSucc n => "-" ++ natDigits (n + 1)

/-- Strip trailing zeros of a fraction-digit list. -/
def stripTrailZeros (cs : List Char) : List Char :=
  (cs.reverse.dropWhile (fun c => c = '0')).reverse

/-- Decimal rendering of the number `m * 10 ^ e`, modelling how JS prints the
numbers that occur here (integers print plainly; fractional values print as
plain decimals with trailing zeros dropped). -/
def jsNumRender (m : Int) (e : Int) : String :=
  if 0 ≤ e then intRepr (m * (10 : Int) ^ e.toNat)
  else
    let k := (-e).toNat
    let sign := if m < 0 then "-" else ""
    let digits := (natDigits m.natAbs).data
    let digits := if digits.length ≤ k then List.replicate (k + 1 - digits.length) '0' ++ digits else digits
    let intPart := digits.take (digits.length - k)
    let fracPart := stripTrailZeros (digits.drop (digits.length - k))
    if fracPart.isEmpty then sign ++ ⟨intPart⟩
    else sign ++ ⟨intPart⟩ ++ "." ++ ⟨fracPart⟩

mutual

def jsonStringify : JValue → Option String
  | .undefined => none
  | .null => some "null"
  | .bool b => some (if b then "true" else "false")
  | .num m e => some (jsNumRender m e)
  | .str s => some (jsonQuote s)
  | .bigint _ => none
  | .arr xs =>
    match jsonStringifyElems xs with
    | some parts => some ("[" ++ joinSep "," parts ++ "]")
    | none => none
  | .obj fs =>
    match jsonStringifyFields fs with
    | some parts => some ("\x7b" ++ joinSep "," parts ++ "\x7d")
    | none => none

def jsonStringifyElems : List JValue → Option (List String)
  | [] => some []
  | x :: xs =>
    let hd : Option String :=
      match x with
      | .undefined => some "null"
      | _ => jsonStringify x
    match hd, jsonStringifyElems xs with
    | some h, some t => some (h :: t)
    | _, _ => none

def jsonStringifyFields : List (String × JValue) → Option (List String)
  | [] => some []
  | (k, v) :: tl =>
    match v with
    | .undefined => jsonStringifyFields tl
    | _ =>
      match jsonStringify v, jsonStringifyFields tl with
      | some sv, some t => some ((jsonQuote k ++ ":" ++ sv) :: t)
      | _, _ => none

end

/-! ### `guardrails-utils.ts`: content extraction -/

/-- The guard `record.type && record.type !== "text"` of
`extractTextFromContent`: a truthy `type` that is not the string `"text"`. -/
def typedNonTextB (fields : List (String × JValue)) : Bool :=
  jsTruthy (jlookup fields "type") &&
    !(match jlookup fields "type" with | .str s => s = "text" | _ => false)

/-- One item of a content array, as `extractTextFromContent` reads it: the
item contributes its `text` field when it is an object whose `type` is
`"text"` or falsy, and the empty string otherwise (non-objects, arrays and
typed non-text blocks all contribute `""`, which the filter then drops). -/
def contentItemText (item : JValue) : String :=
  match item with
  | .obj fields =>
    if typedNonTextB fields then ""
    else
      match jlookup fields "text" with
      | .str t => t
      | _ => ""
  | _ => ""

/-- `extractTextFromContent` from `guardrails-utils.ts`: plain strings pass
through, arrays map each item to its text, drop the falsy (empty) ones and
join with a newline, and any other value yields `""`. -/
def extractTextFromContent (content : JValue) : String :=
  match content with
  | .str s => s
  | .arr items => joinSep "\n" ((items.map contentItemText).filter (fun t => t ≠ ""))
  | _ => ""

/-- `extractToolResultText` from `guardrails-utils.ts`. `Option.getD ""`
models the `try ... catch ... return ""` around each `JSON.stringify` call. -/
def extractToolResultText (result : JValue) : String :=
  match result with
  | .null => ""
  | .undefined => ""
  | _ =>
    let contentText := jsTrim (extractTextFromContent (jget result "content"))
    if contentText ≠ "" then contentText
    else if !(isUndefB (jget result "details")) then (jsonStringify (jget result "details")).getD ""
    else (jsonStringify result).getD ""

/-- `extractMessagesContent` from `guardrails-utils.ts`. -/
def extractMessagesContent (messages : List JValue) : String :=
  let parts := messages.filterMap (fun message =>
    let role := jget message "role"
    let isUser : Bool := match role with | .str s => s = "user" | _ => false
    let isAssistant : Bool := match role with | .str s => s = "assistant" | _ => false
    if !isUser && !isAssistant then none
    else
      let content := jsTrim (extractTextFromContent (jget message "content"))
      if content ≠ "" then some ((if isUser then "User" else "Agent") ++ ": " ++ content)
      else none)
  joinSep "\n" parts

/-! ### `guardrails-utils.ts`: tool-result manipulation -/

/-- The content block `\x7b type: "text", text \x7d` the warnings are wrapped in. -/
def textBlock (text : String) : JValue := .obj [("type", .str "text"), ("text", .str text)]

/-- Index-keyed fields produced by spreading an array into an object literal. -/
def spreadArrFields (xs : List JValue) : List (String × JValue) :=
  xs.enum.map (fun p => (natDigits p.1, p.2))

/-- `appendWarningToToolResult` from `guardrails-utils.ts`:
`\x7b ...result, content: [...(content array or []), textBlock warning] \x7d`.
(For the non-object results that never occur here, the spread contributes no
fields and only `content` remains.) -/
def appendWarningToToolResult (result : JValue) (warning : String) : JValue :=
  let content : List JValue :=
    match jget result "content" with
    | .arr xs => xs
    | _ => []
  let content := content ++ [textBlock warning]
  match result with
  | .obj fields => .obj (objSetFields fields "content" (.arr content))
  | .arr xs => .obj (objSetFields (spreadArrFields xs) "content" (.arr content))
  | _ => .obj [("content", .arr content)]

/-- `replaceToolResultWithWarning` from `guardrails-utils.ts`: a fresh result
whose content is the single warning text block and whose details are the old
details (when they were a truthy object) extended with `guardrailWarning`,
or a fresh map holding only `guardrailWarning` otherwise. -/
def replaceToolResultWithWarning (result : JValue) (warning : String) : JValue :=
  let baseDetails : Option JValue :=
    if jsTruthy result && jsTypeofObject result then
      match result with
      | .obj fields =>
        match jlookupOpt fields "details" with
        | some d => if jsTruthy d && jsTypeofObject d then some d else none
        | none => none
      | _ => none
    else none
  let details : JValue :=
    match baseDetails with
    | some (.obj dfields) => .obj (objSetFields dfields "guardrailWarning" (.str warning))
    | some (.arr xs) => .obj (spreadArrFields xs ++ [("guardrailWarning", .str warning)])
    | _ => .obj [("guardrailWarning", .str warning)]
  .obj [("content", .arr [textBlock warning]), ("details", details)]

/-- `buildToolCallSummary` from `guardrails-utils.ts` (the `catch` branch
falls back to the bare tool name). -/
def buildToolCallSummary (toolName : String) (toolCallId : String) (params : JValue) : String :=
  match jsonStringify (.obj [("tool", .str toolName), ("toolCallId", .str toolCallId),
      ("params", params)]) with
  | some s => s
  | none => toolName

/-- `safeJsonStringify` from `guardrails-utils.ts`. -/
def safeJsonStringify (value : JValue) : Option String := jsonStringify value

/-! ### `guardrails-utils.ts`: stage configuration -/

inductive GuardrailStage where
  | before_request
  | after_response
  | before_tool_call
  | after_tool_call
deriving DecidableEq

inductive StageMode where
  | block
  | monitor
deriving DecidableEq

inductive StageBlockMode where
  | replace
  | append
deriving DecidableEq

/-- `BaseStageConfig`: each field is optional, mirroring the TS type. -/
structure BaseStageConfig where
  enabled : Option Bool := none
  mode : Option StageMode := none
  blockMode : Option StageBlockMode := none
  includeHistory : Option Bool := none
deriving DecidableEq

/-- The generic `stages` record (`T extends BaseStageConfig` in the source). -/
structure StagesMap (α : Type) where
  beforeRequest : Option α := none
  beforeToolCall : Option α := none
  afterToolCall : Option α := none
  afterResponse : Option α := none

/-- `isStageEnabled` from `guardrails-utils.ts`. -/
def isStageEnabled (stage : Option BaseStageConfig) : Bool :=
  match stage with
  | none => false
  | some s => s.enabled ≠ some false

/-- `resolveBlockMode` from `guardrails-utils.ts`. -/
def resolveBlockMode (stage : GuardrailStage) (stageCfg : Option BaseStageConfig) :
    StageBlockMode :=
  match stageCfg.bind (fun c => c.blockMode) with
  | some bm => bm
  | none => if stage = .after_tool_call then .append else .replace

/-- `resolveStageConfig` from `guardrails-utils.ts`. -/
def resolveStageConfig {α : Type} (stages : Option (StagesMap α)) (stage : GuardrailStage) :
    Option α :=
  match stages with
  | none => none
  | some s =>
    match stage with
    | .before_request => s.beforeRequest
    | .before_tool_call => s.beforeToolCall
    | .after_tool_call => s.afterToolCall
    | .after_response => s.afterResponse

/-! ### `JSON.parse`

A fuel-indexed recursive-descent parser for the JSON grammar, modelling the
built-in `JSON.parse` (duplicate object keys follow JS last-wins semantics;
the fuel chosen by `jsonParseJS` is large enough for any input of the given
length, so it never causes a spurious failure). -/

def jsonWs (c : Char) : Bool := c = ' ' || c = '\t' || c = '\n' || c = '\r'

def skipJsonWs (cs : List Char) : List Char := cs.dropWhile jsonWs

def isDigitChar (c : Char) : Bool := '0' ≤ c ∧ c ≤ '9'

def digitsToNat (cs : List Char) : Nat :=
  cs.foldl (fun a c => a * 10 + (c.toNat - 48)) 0

/-- Parse one JSON numeral (`-?(0|[1-9][0-9]*)(\.[0-9]+)?([eE][+-]?[0-9]+)?`),
returning mantissa and decimal exponent. -/
def parseJsonNumber (cs : List Char) : Option (Int × Int × List Char) :=
  let (sign, cs1) : Int × List Char :=
    match cs with
    | c :: tl => if c = '-' then (-1, tl) else (1, cs)
    | [] => (1, cs)
  let intDigits := cs1.takeWhile isDigitChar
  if intDigits.isEmpty then none
  else if intDigits.length > 1 && intDigits.headI = '0' then none
  else
    let cs2 := cs1.drop intDigits.length
    let (fracDigits, cs3) : List Char × List Char :=
      match cs2 with
      | c :: tl =>
        if c = '.' then (tl.takeWhile isDigitChar, tl.drop (tl.takeWhile isDigitChar).length)
        else ([], cs2)
      | [] => ([], cs2)
    match cs2 with
    | c :: _ => if c = '.' && fracDigits.isEmpty then none else
      parseJsonNumberExp sign intDigits fracDigits cs3
    | [] => parseJsonNumberExp sign intDigits fracDigits cs3
where
  parseJsonNumberExp (sign : Int) (intDigits fracDigits : List Char) (cs : List Char) :
      Option (Int × Int × List Char) :=
    let m : Int := sign * Int.ofNat (digitsToNat (intDigits ++ fracDigits))
    let baseExp : Int := -(Int.ofNat fracDigits.length)
    match cs with
    | c :: tl =>
      if c = 'e' || c = 'E' then
        let (esign, tl1) : Int × List Char :=
          match tl with
          | d :: tl2 => if d = '+' then (1, tl2) else if d = '-' then (-1, tl2) else (1, tl)
          | [] => (1, tl)
        let expDigits := tl1.takeWhile isDigitChar
        if expDigits.isEmpty then none
        else some (m, baseExp + esign * Int.ofNat (digitsToNat expDigits),
          tl1.drop expDigits.length)
      else some (m, baseExp, cs)
    | [] => some (m, baseExp, cs)

/-- Parse the body of a JSON string after the opening quote. -/
def parseJsonStringBody : List Char → Option (List Char × List Char)
  | [] => none
  | c :: tl =>
    if c = quoteChar then some ([], tl)
    else if c = backslashChar then
      match tl with
      | [] => none
      | e :: tl2 =>
        if e = quoteChar then (parseJsonStringBody tl2).map (fun p => (quoteChar :: p.1, p.2))
        else if e = backslashChar then
          (parseJsonStringBody tl2).map (fun p => (backslashChar :: p.1, p.2))
        else if e = '/' then (parseJsonStringBody tl2).map (fun p => ('/' :: p.1, p.2))
        else if e = 'b' then (parseJsonStringBody tl2).map (fun p => (Char.ofNat 8 :: p.1, p.2))
        else if e = 'f' then (parseJsonStringBody tl2).map (fun p => (Char.ofNat 12 :: p.1, p.2))
        else if e = 'n' then (parseJsonStringBody tl2).map (fun p => ('\n' :: p.1, p.2))
        else if e = 'r' then (parseJsonStringBody tl2).map (fun p => ('\r' :: p.1, p.2))
        else if e = 't' then (parseJsonStringBody tl2).map (fun p => ('\t' :: p.1, p.2))
        else if e = 'u' then
          match tl2 with
          | h1 :: h2 :: h3 :: h4 :: tl3 =>
            match hexVal h1, hexVal h2, hexVal h3, hexVal h4 with
            | some a, some b, some c2, some d =>
              (parseJsonStringBody tl3).map
                (fun p => (Char.ofNat (a * 4096 + b * 256 + c2 * 16 + d) :: p.1, p.2))
            | _, _, _, _ => none
          | _ => none
        else none
    else if c.toNat < 32 then none
    else (parseJsonStringBody tl).map (fun p => (c :: p.1, p.2))
where
  hexVal (c : Char) : Option Nat :=
    if isDigitChar c then some (c.toNat - 48)
    else if 'a' ≤ c ∧ c ≤ 'f' then some (c.toNat - 87)
    else if 'A' ≤ c ∧ c ≤ 'F' then some (c.toNat - 55)
    else none

mutual

def parseJsonValue : Nat → List Char → Option (JValue × List Char)
  | 0, _ => none
  | _ + 1, [] => none
  | fuel + 1, c :: tl =>
    if c = 'n' then
      match tl with
      | 'u' :: 'l' :: 'l' :: rest => some (.null, rest)
      | _ => none
    else if c = 't' then
      match tl with
      | 'r' :: 'u' :: 'e' :: rest => some (.bool true, rest)
      | _ => none
    else if c = 'f' then
      match tl with
      | 'a' :: 'l' :: 's' :: 'e' :: rest => some (.bool false, rest)
      | _ => none
    else if c = quoteChar then
      (parseJsonStringBody tl).map (fun p => (.str ⟨p.1⟩, p.2))
    else if c = '[' then
      let rest := skipJsonWs tl
      match rest with
      | ']' :: rest2 => some (.arr [], rest2)
      | _ => parseJsonArrItems fuel rest []
    else if c = lcurlChar then
      let rest := skipJsonWs tl
      match rest with
      | r :: rest2 => if r = rcurlChar then some (.obj [], rest2) else parseJsonObjItems fuel rest []
      | [] => none
    else
      (parseJsonNumber (c :: tl)).map (fun p => (.num p.1 p.2.1, p.2.2))

def parseJsonArrItems : Nat → List Char → List JValue → Option (JValue × List Char)
  | 0, _, _ => none
  | fuel + 1, cs, acc =>
    match parseJsonValue fuel cs with
    | none => none
    | some (v, rest) =>
      match skipJsonWs rest with
      | ',' :: rest2 => parseJsonArrItems fuel (skipJsonWs rest2) (acc ++ [v])
      | ']' :: rest2 => some (.arr (acc ++ [v]), rest2)
      | _ => none

def parseJsonObjItems : Nat → List Char → List (String × JValue) →
    Option (JValue × List Char)
  | 0, _, _ => none
  | fuel + 1, cs, acc =>
    match cs with
    | c :: tl =>
      if c = quoteChar then
        match parseJsonStringBody tl with
        | none => none
        | some (key, rest) =>
          match skipJsonWs rest with
          | ':' :: rest2 =>
            match parseJsonValue fuel (skipJsonWs rest2) with
            | none => none
            | some (v, rest3) =>
              let acc := objSetFields acc ⟨key⟩ v
              match skipJsonWs rest3 with
              | ',' :: rest4 => parseJsonObjItems fuel (skipJsonWs rest4) acc
              | r :: rest4 => if r = rcurlChar then some (.obj acc, rest4) else none
              | [] => none
          | _ => none
      else none
    | [] => none

end

/-- `JSON.parse(s)`: `none` models a thrown `SyntaxError`. -/
def jsonParseJS (s : String) : Option JValue :=
  let cs := skipJsonWs s.data
  match parseJsonValue (3 * cs.length + 8) cs with
  | some (v, rest) => if (skipJsonWs rest).isEmpty then some v else none
  | none => none

/-! ### GPT-OSS-Safeguard response parsing (`extensions/gpt-oss-safeguard/index.ts`) -/

structure SafeguardEvaluation where
  safe : Bool
  violation : Option Bool := none
  policyCategory : Option String := none
  rationale : Option String := none
  confidence : Option String := none
deriving DecidableEq

/-- The regex `/\x7b[\s\S]*\x7d/` used to pull a JSON candidate out of the
response: everything from the first opening curly brace through the last
closing one, if the latter comes strictly after the former; otherwise the
whole (trimmed) response. -/
def extractJsonCandidate (trimmed : String) : String :=
  let cs := trimmed.data
  match cs.findIdx? (fun x => x = lcurlChar) with
  | none => trimmed
  | some i =>
    match cs.reverse.findIdx? (fun x => x = rcurlChar) with
    | none => trimmed
    | some rj =>
      let j := cs.length - 1 - rj
      if i < j then ⟨(cs.drop i).take (j - i + 1)⟩ else trimmed

/-- Case-insensitive literal match: `pat` must be lowercase; consumes `pat`
from the front of `cs` and returns the remainder. -/
def ciMatchAt (pat : List Char) (cs : List Char) : Option (List Char) :=
  match pat, cs with
  | [], rest => some rest
  | p :: ps, c :: tl => if c.toLower = p then ciMatchAt ps tl else none
  | _ :: _, [] => none

/-- Does the regex `/violation["\x27]?\s*:\s*(1|true)/i` match at the head of
`cs`? -/
def violationMarkAt (cs : List Char) : Bool :=
  match ciMatchAt ("violation".data) cs with
  | none => false
  | some rest =>
    let rest2 := match rest with
      | c :: tl => if c = quoteChar || c = apostChar then tl else c :: tl
      | [] => []
    match rest2.dropWhile jsWsChar with
    | c :: tl =>
      if c = ':' then
        match tl.dropWhile jsWsChar with
        | d :: tl2 => d = '1' || (ciMatchAt ("true".data) (d :: tl2)).isSome
        | [] => false
      else false
    | [] => false

/-- An occurrence of this pattern existing anywhere in `cs` (regex `test`). -/
def anyTailHolds (p : List Char → Bool) : List Char → Bool
  | [] => p []
  | c :: tl => p (c :: tl) || anyTailHolds p tl

/-- `/violation["\x27]?\s*:\s*(1|true)/i.test(s)`. -/
def hasViolationRegexMatch (s : String) : Bool := anyTailHolds violationMarkAt s.data

/-- The `catch` fallback of `parseSafeguardResponse`: scan the raw trimmed
text for a violation indicator. -/
def safeguardFallback (trimmed : String) : SafeguardEvaluation :=
  let hasViolation := hasViolationRegexMatch trimmed || trimmed == "1"
  { safe := !hasViolation, violation := some hasViolation }

/-- `parsed.violation === 1 || parsed.violation === true`. -/
def jsViolationFlag (v : JValue) : Bool :=
  match v with
  | .num m e => if 0 ≤ e then m * (10 : Int) ^ e.toNat = 1 else m = (10 : Int) ^ (-e).toNat
  | .bool b => b
  | _ => false

/-- `typeof v === "string" ? v : undefined`. -/
def jsStringField (v : JValue) : Option String :=
  match v with
  | .str s => some s
  | _ => none

/-- `parseSafeguardResponse` from `extensions/gpt-oss-safeguard/index.ts`.
When `JSON.parse` succeeds on `null`, the subsequent property access throws a
`TypeError` which the same `catch` turns into the fallback scan. -/
def parseSafeguardResponse (response : String) (outputFormat : String) : SafeguardEvaluation :=
  let trimmed := jsTrim response
  if outputFormat = "binary" then
    let violation := trimmed == "1" || jsStartsWith trimmed "1"
    { safe := !violation, violation := some violation }
  else
    let jsonStr := extractJsonCandidate trimmed
    match jsonParseJS jsonStr with
    | none => safeguardFallback trimmed
    | some .null => safeguardFallback trimmed
    | some parsed =>
      let violation := jsViolationFlag (jget parsed "violation")
      { safe := !violation
        violation := some violation
        policyCategory := jsStringField (jget parsed "policy_category")
        rationale := jsStringField (jget parsed "rationale")
        confidence := jsStringField (jget parsed "confidence") }

/-! ### Llama Guard response parsing (`extensions/llamaguard/index.ts`) -/

structure LlamaGuardEvaluation where
  safe : Bool
  violatedCategories : List String
deriving DecidableEq

/-- `response.trim().split("\n")[0].toLowerCase().trim()` (the split is never
empty, so the `?? ""` in the source is unreachable). -/
def llamaFirstLine (response : String) : String :=
  match splitNl (jsTrim response).data with
  | [] => ""
  | l :: _ => jsTrim (jsToLower ⟨l⟩)

/-- The matches of the global regex `/S[0-9]+/g`: maximal runs of digits after
a capital `S`, scanned left to right. The first argument holds the digits (in
reverse) of a pending match. -/
def sDigitScan : Option (List Char) → List Char → List String
  | pending, [] =>
    (match pending with
     | some ds => if ds.isEmpty then [] else [⟨'S' :: ds.reverse⟩]
     | none => [])
  | pending, c :: tl =>
    match pending with
    | some ds =>
      if c.isDigit then sDigitScan (some (c :: ds)) tl
      else
        (if ds.isEmpty then [] else [(⟨'S' :: ds.reverse⟩ : String)]) ++
          (if c = 'S' then sDigitScan (some []) tl else sDigitScan none tl)
    | none => if c = 'S' then sDigitScan (some []) tl else sDigitScan none tl

def sDigitMatches (s : String) : List String := sDigitScan none s.data

/-- `parseLlamaGuardResponse` from `extensions/llamaguard/index.ts`. -/
def parseLlamaGuardResponse (response : String) : LlamaGuardEvaluation :=
  let lines := splitNl (jsTrim response).data
  let firstLine := llamaFirstLine response
  if firstLine = "safe" then { safe := true, violatedCategories := [] }
  else if firstLine = "unsafe" then
    let categoriesLine : String :=
      match lines with
      | _ :: l2 :: _ => jsTrim ⟨l2⟩
      | _ => ""
    let violatedCategories :=
      ((splitComma categoriesLine.data).map (fun l => jsTrim ⟨l⟩)).filter (fun x => x ≠ "")
    { safe := false, violatedCategories }
  else if segOccurs ("unsafe".data) (jsToLower response).data then
    { safe := false, violatedCategories := sDigitMatches response }
  else { safe := true, violatedCategories := [] }

/-! ### GPT-OSS-Safeguard: evaluator wrapper and stage hooks

The backend call performed through `runEmbeddedPiAgent` is an external I/O
action; its result is modelled by `ModelCallOutcome`: either the awaited call
threw (exception, timeout, transport error), or it returned and its payloads
collect (via `collectText`) to the given text. Config fields that only shape
that call (provider, model, policy, reasoning effort, timeout, max tokens) are
omitted from the embedded config, since the outcome value already abstracts
the call they configure. -/

inductive ModelCallOutcome where
  | failure (errMsg : String)
  | success (text : String)

structure SafeguardConfig where
  enabled : Option Bool := none
  outputFormat : Option String := none
  failOpen : Option Bool := none
  stages : Option (StagesMap BaseStageConfig) := none

/-- What a registered hook returns: `passthrough` is the bare `return;`,
the three block shapes carry the stage-appropriate field of the
`\x7b block: true, ... \x7d` object, and `mutateAssistantTexts` is the
blockless `\x7b assistantTexts \x7d` mutation of the `after_response` hook. -/
inductive HookOutcome where
  | passthrough
  | blockResponse (response : String)
  | blockReason (reason : String)
  | blockResult (result : JValue)
  | mutateAssistantTexts (texts : List String)

/-- `callSafeguard` from `extensions/gpt-oss-safeguard/index.ts`, as a
function of the backend outcome. The returned `Except` is the promise
(`error` = the rethrown exception when `failOpen === false`); the list
collects the `api.logger.warn` messages. On an empty collected text with
`failOpen === false` the wrapper throws, and its own `catch` logs again and
rethrows. -/
def callSafeguard (cfg : SafeguardConfig) (outcome : ModelCallOutcome) :
    Except Unit (Option SafeguardEvaluation) × List String :=
  let outputFormat := cfg.outputFormat.getD "json"
  match outcome with
  | .failure errMsg =>
    if cfg.failOpen = some false then
      (.error (), ["GPT-OSS-Safeguard call failed: " ++ errMsg])
    else
      (.ok none, ["GPT-OSS-Safeguard call failed: " ++ errMsg])
  | .success text =>
    if text = "" then
      if cfg.failOpen = some false then
        (.error (), ["GPT-OSS-Safeguard returned empty response",
          "GPT-OSS-Safeguard call failed: GPT-OSS-Safeguard returned empty response"])
      else
        (.ok none, ["GPT-OSS-Safeguard returned empty response"])
    else
      (.ok (some (parseSafeguardResponse text outputFormat)), [])

/-- `formatViolationMessage` of the GPT-OSS-Safeguard plugin (the template
conditions are JS truthiness, so empty strings add nothing). -/
def formatSafeguardViolationMessage (evaluation : SafeguardEvaluation)
    (location : String) : String :=
  let parts := ["Sorry, I can\x27t help with that. The " ++ location ++
    " was flagged as potentially unsafe by the GPT-OSS-Safeguard safety system."]
  let parts := parts ++
    (match evaluation.policyCategory with
     | some c => if c ≠ "" then ["Policy category: " ++ c ++ "."] else []
     | none => [])
  let parts := parts ++
    (match evaluation.rationale with
     | some r => if r ≠ "" then ["Reason: " ++ r] else []
     | none => [])
  joinSep " " parts

/-- The `${evaluation.policyCategory ? ... : ""}` suffix of the monitor logs. -/
def policyCategorySuffix (evaluation : SafeguardEvaluation) : String :=
  match evaluation.policyCategory with
  | some c => if c ≠ "" then ": " ++ c else ""
  | none => ""

structure BeforeRequestEvent where
  prompt : String
  messages : List JValue

structure BeforeToolCallEvent where
  toolName : String
  toolCallId : String
  params : JValue
  messages : List JValue

structure AfterToolCallEvent where
  toolName : String
  toolCallId : String
  params : JValue
  result : JValue
  messages : List JValue

structure AfterResponseEvent where
  assistantTexts : List String
  lastAssistant : Option JValue := none
  messages : List JValue

/-- `event.assistantTexts.join("\n").trim() || (event.lastAssistant ?
extractTextFromContent(event.lastAssistant.content).trim() : "")` — the
effective focal text of the `after_response` hooks. -/
def effectiveAssistantText (event : AfterResponseEvent) : String :=
  let joined := jsTrim (joinSep "\n" event.assistantTexts)
  if joined ≠ "" then joined
  else
    match event.lastAssistant with
    | some lastAssistant => jsTrim (extractTextFromContent (jget lastAssistant "content"))
    | none => ""

/-- The `before_request` hook of the GPT-OSS-Safeguard plugin. The history
context only feeds the evaluator prompt, which the outcome abstracts. -/
def safeguardBeforeRequest (cfg : SafeguardConfig) (event : BeforeRequestEvent)
    (outcome : ModelCallOutcome) : HookOutcome × List String :=
  let stageCfg := resolveStageConfig cfg.stages .before_request
  if !isStageEnabled stageCfg then (.passthrough, [])
  else if jsTrim event.prompt = "" then (.passthrough, [])
  else
    match callSafeguard cfg outcome with
    | (.error _, logs) =>
      (.blockResponse "Request blocked because GPT-OSS-Safeguard guardrail failed.", logs)
    | (.ok none, logs) => (.passthrough, logs)
    | (.ok (some evaluation), logs) =>
      if evaluation.safe then (.passthrough, logs)
      else if stageCfg.bind (fun c => c.mode) = some .monitor then
        (.passthrough,
          logs ++ ["[monitor] GPT-OSS-Safeguard flagged input" ++ policyCategorySuffix evaluation])
      else
        (.blockResponse (formatSafeguardViolationMessage evaluation "input query"), logs)

/-- The `before_tool_call` hook of the GPT-OSS-Safeguard plugin (it has no
empty-content short-circuit: the tool summary feeds the evaluator directly). -/
def safeguardBeforeToolCall (cfg : SafeguardConfig) (event : BeforeToolCallEvent)
    (outcome : ModelCallOutcome) : HookOutcome × List String :=
  let stageCfg := resolveStageConfig cfg.stages .before_tool_call
  if !isStageEnabled stageCfg then (.passthrough, [])
  else
    match callSafeguard cfg outcome with
    | (.error _, logs) =>
      (.blockReason "Tool call blocked because GPT-OSS-Safeguard guardrail failed.", logs)
    | (.ok none, logs) => (.passthrough, logs)
    | (.ok (some evaluation), logs) =>
      if evaluation.safe then (.passthrough, logs)
      else if stageCfg.bind (fun c => c.mode) = some .monitor then
        (.passthrough, logs ++ ["[monitor] GPT-OSS-Safeguard flagged tool call " ++
          event.toolName ++ policyCategorySuffix evaluation])
      else
        (.blockReason (formatSafeguardViolationMessage evaluation "tool call request"), logs)

/-- The `after_tool_call` hook of the GPT-OSS-Safeguard plugin. -/
def safeguardAfterToolCall (cfg : SafeguardConfig) (event : AfterToolCallEvent)
    (outcome : ModelCallOutcome) : HookOutcome × List String :=
  let stageCfg := resolveStageConfig cfg.stages .after_tool_call
  if !isStageEnabled stageCfg then (.passthrough, [])
  else if jsTrim (extractToolResultText event.result) = "" then (.passthrough, [])
  else
    match callSafeguard cfg outcome with
    | (.error _, logs) =>
      (.blockResult (replaceToolResultWithWarning event.result
        "Tool result blocked because GPT-OSS-Safeguard guardrail failed."), logs)
    | (.ok none, logs) => (.passthrough, logs)
    | (.ok (some evaluation), logs) =>
      if evaluation.safe then (.passthrough, logs)
      else if stageCfg.bind (fun c => c.mode) = some .monitor then
        (.passthrough, logs ++ ["[monitor] GPT-OSS-Safeguard flagged tool result " ++
          event.toolName ++ policyCategorySuffix evaluation])
      else
        let message := formatSafeguardViolationMessage evaluation "tool response"
        (.blockResult (if resolveBlockMode .after_tool_call stageCfg = .append then
            appendWarningToToolResult event.result message
          else replaceToolResultWithWarning event.result message), logs)

/-- The `after_response` hook of the GPT-OSS-Safeguard plugin. In `append`
block mode it returns the blockless `assistantTexts` mutation. -/
def safeguardAfterResponse (cfg : SafeguardConfig) (event : AfterResponseEvent)
    (outcome : ModelCallOutcome) : HookOutcome × List String :=
  let stageCfg := resolveStageConfig cfg.stages .after_response
  if !isStageEnabled stageCfg then (.passthrough, [])
  else if effectiveAssistantText event = "" then (.passthrough, [])
  else
    match callSafeguard cfg outcome with
    | (.error _, logs) =>
      (.blockResponse "Response blocked because GPT-OSS-Safeguard guardrail failed.", logs)
    | (.ok none, logs) => (.passthrough, logs)
    | (.ok (some evaluation), logs) =>
      if evaluation.safe then (.passthrough, logs)
      else if stageCfg.bind (fun c => c.mode) = some .monitor then
        (.passthrough, logs ++
          ["[monitor] GPT-OSS-Safeguard flagged response" ++ policyCategorySuffix evaluation])
      else
        let message := formatSafeguardViolationMessage evaluation "model response"
        if resolveBlockMode .after_response stageCfg = .append then
          (.mutateAssistantTexts (event.assistantTexts ++ [message]), logs)
        else
          (.blockResponse message, logs)

/-! ### Gray Swan plugin

`JNum` models a JS `number` where NaN and infinities matter (the
`violationThreshold` config fields and the monitor response's `violation`
score); finite values are exact rationals. -/

inductive JNum where
  | nan
  | inf
  | ninf
  | val (q : ℚ)

structure GrayswanStageConfig extends BaseStageConfig where
  violationThreshold : Option JNum := none
  blockOnMutation : Option Bool := none
  blockOnIpi : Option Bool := none

/-- The Gray Swan plugin config (fields that only shape the HTTP request —
`apiBase`, `policyId`, `categories`, `reasoningMode`, `timeoutMs` — are
abstracted by the call outcome). -/
structure GrayswanGuardrailConfig where
  enabled : Option Bool := none
  apiKey : Option String := none
  violationThreshold : Option JNum := none
  failOpen : Option Bool := none
  stages : Option (StagesMap GrayswanStageConfig) := none

/-- `GRAYSWAN_DEFAULT_THRESHOLD`. -/
def grayswanDefaultThreshold : ℚ := 1/2

/-- `resolveGrayswanThreshold`: `stage?.violationThreshold ??
cfg.violationThreshold`, then `Number.isFinite` gates the clamp
`Math.min(1, Math.max(0, value))`, else the 0.5 default. A stage-level NaN or
infinity is not nullish, so it still shadows the instance-level value. -/
def resolveGrayswanThreshold (cfg : GrayswanGuardrailConfig)
    (stage : Option GrayswanStageConfig) : ℚ :=
  let value : Option JNum := (stage.bind (fun s => s.violationThreshold)).orElse
    (fun _ => cfg.violationThreshold)
  match value with
  | some (.val q) => min 1 (max 0 q)
  | _ => grayswanDefaultThreshold

/-- `resolveBlockOnMutation`. -/
def resolveBlockOnMutation (stage : GuardrailStage)
    (stageCfg : Option GrayswanStageConfig) : Bool :=
  match stageCfg.bind (fun s => s.blockOnMutation) with
  | some b => b
  | none => stage = .after_tool_call

/-- `resolveBlockOnIpi`. -/
def resolveBlockOnIpi (stage : GuardrailStage)
    (stageCfg : Option GrayswanStageConfig) : Bool :=
  match stageCfg.bind (fun s => s.blockOnIpi) with
  | some b => b
  | none => stage = .after_tool_call

/-- `resolveGrayswanApiKey`: the trimmed config key when truthy, else the
trimmed `GRAYSWAN_API_KEY` environment value (`env || undefined`). -/
def resolveGrayswanApiKey (cfg : GrayswanGuardrailConfig) (envKey : Option String) :
    Option String :=
  let envFallback : Option String :=
    match envKey with
    | some e => if jsTrim e ≠ "" then some (jsTrim e) else none
    | none => none
  match cfg.apiKey with
  | some k => if jsTrim k ≠ "" then some (jsTrim k) else envFallback
  | none => envFallback

/-- The parsed body of a Gray Swan `/cygnal/monitor` response (optional
fields, as typed in the source). -/
structure GrayswanMonitorResponse where
  violation : Option JNum := none
  violated_rules : Option (List JValue) := none
  violated_rule_descriptions : Option (List JValue) := none
  mutation : Option Bool := none
  ipi : Option Bool := none

structure GrayswanEvaluation where
  violationScore : ℚ
  violatedRules : List JValue
  mutation : Bool
  ipi : Bool

/-- `evaluateGrayswanResponse`: `Number(response.violation ?? 0)` gated by
`Number.isFinite` (a missing score, NaN or infinity all land on 0);
`violated_rule_descriptions` wins over `violated_rules`. -/
def evaluateGrayswanResponse (response : GrayswanMonitorResponse) : GrayswanEvaluation :=
  { violationScore :=
      match response.violation.getD (.val 0) with
      | .val q => q
      | _ => 0
    violatedRules :=
      match response.violated_rule_descriptions with
      | some l => l
      | none => response.violated_rules.getD []
    mutation := response.mutation.getD false
    ipi := response.ipi.getD false }

/-- `shouldBlockByEvaluation`. -/
def shouldBlockByEvaluation (evaluation : GrayswanEvaluation) (threshold : ℚ)
    (blockOnMutation : Bool) (blockOnIpi : Bool) : Bool :=
  decide (threshold ≤ evaluation.violationScore) ||
    (blockOnMutation && evaluation.mutation) || (blockOnIpi && evaluation.ipi)

/-! Gray Swan message formatting. `qToFixed2` and `jsToStringShallow` model
`Number.prototype.toFixed(2)` and the `String(...)` coercion closely enough
for the message strings (no theorem depends on their digit-level output). -/

/-- `score.toFixed(2)`: two fraction digits, rounding half away from zero. -/
def qToFixed2 (q : ℚ) : String :=
  let cents : Nat := (⌊|q| * 100 + 1/2⌋).toNat
  let sign := if q < 0 then "-" else ""
  sign ++ natDigits (cents / 100) ++ "." ++
    (if cents % 100 < 10 then "0" else "") ++ natDigits (cents % 100)

/-- JS `String(v)` for the primitive shapes that reach it here (arrays join
their shallow element renderings; nested structure beyond that does not occur
in monitor responses). -/
def jsToStringShallow (v : JValue) : String :=
  match v with
  | .str s => s
  | .bool b => if b then "true" else "false"
  | .null => "null"
  | .undefined => "undefined"
  | .num m e => jsNumRender m e
  | .bigint n => intRepr n
  | .obj _ => "[object Object]"
  | .arr _ => ""

def jsToString (v : JValue) : String :=
  match v with
  | .arr xs => joinSep "," (xs.map jsToStringShallow)
  | _ => jsToStringShallow v

/-- One entry of `formatViolatedRules` (`record.rule ?? record.index ??
record.id` is nullish coalescing; the `if (ruleNum && ruleName)` guard is
truthiness). -/
def formatViolatedRuleOne (rule : JValue) : String :=
  match rule with
  | .obj record =>
    let ruleNum := jsCoalesce (jlookup record "rule")
      (jsCoalesce (jlookup record "index") (jlookup record "id"))
    let ruleName := match jlookup record "name" with | .str s => s | _ => ""
    let ruleDesc := match jlookup record "description" with | .str s => s | _ => ""
    if jsTruthy ruleNum && ruleName ≠ "" then
      if ruleDesc ≠ "" then
        "#" ++ jsToString ruleNum ++ " " ++ ruleName ++ ": " ++ ruleDesc
      else "#" ++ jsToString ruleNum ++ " " ++ ruleName
    else if ruleName ≠ "" then ruleName
    else jsToString rule
  | _ => jsToString rule

def formatViolatedRules (violatedRules : List JValue) : String :=
  joinSep ", " (violatedRules.map formatViolatedRuleOne)

/-- `formatGrayswanViolationMessage`. -/
def formatGrayswanViolationMessage (evaluation : GrayswanEvaluation)
    (location : String) : String :=
  let parts := ["Sorry I can\x27t help with that. According to the Gray Swan Cygnal " ++
    "Guardrail, the " ++ location ++ " has a violation score of " ++
    qToFixed2 evaluation.violationScore ++ "."]
  let parts := parts ++
    (if evaluation.violatedRules.length > 0 then
      (let formattedRules := formatViolatedRules evaluation.violatedRules
       if formattedRules ≠ "" then
         ["It was violating the rule(s): " ++ formattedRules ++ "."]
       else [])
     else [])
  let parts := parts ++
    (if evaluation.mutation then
      ["Mutation effort to make the harmful intention disguised was DETECTED."] else [])
  let parts := parts ++
    (if evaluation.ipi then ["Indirect Prompt Injection was DETECTED."] else [])
  joinSep "\n" parts

inductive GrayswanRole where
  | user
  | assistant
  | tool
  | system
deriving DecidableEq

structure GrayswanMonitorMessage where
  role : GrayswanRole
  content : String

def makeGrayswanMessage (role : GrayswanRole) (content : String) : GrayswanMonitorMessage :=
  ⟨role, content⟩

/-- `toGrayswanRole`. -/
def toGrayswanRole (role : JValue) : Option GrayswanRole :=
  match role with
  | .str s =>
    if s = "user" then some .user
    else if s = "assistant" then some .assistant
    else if s = "system" then some .system
    else if s = "toolResult" || s = "tool" then some .tool
    else none
  | _ => none

/-- `toGrayswanMessages`. -/
def toGrayswanMessages (messages : List JValue) : List GrayswanMonitorMessage :=
  messages.filterMap (fun message =>
    match toGrayswanRole (jget message "role") with
    | none => none
    | some role =>
      let content := jsTrim (extractTextFromContent (jget message "content"))
      if content = "" then none else some ⟨role, content⟩)

/-- The outcome of the awaited `fetch` to the monitor endpoint: thrown
(network error, timeout abort, or the non-2xx branch throwing), or a parsed
response body. -/
inductive GrayswanOutcome where
  | failure (errMsg : String)
  | response (r : GrayswanMonitorResponse)

/-- `callGrayswanMonitor`, as a function of the resolved API key and the
fetch outcome: without a key it warns and resolves `null`; a thrown error is
logged and rethrown only when `failOpen === false`. -/
def callGrayswanMonitor (cfg : GrayswanGuardrailConfig) (envKey : Option String)
    (outcome : GrayswanOutcome) : Except Unit (Option GrayswanMonitorResponse) × List String :=
  match resolveGrayswanApiKey cfg envKey with
  | none => (.ok none, ["Gray Swan guardrail enabled but no API key configured."])
  | some _ =>
    match outcome with
    | .failure errMsg =>
      if cfg.failOpen = some false then
        (.error (), ["Gray Swan monitor failed: " ++ errMsg])
      else
        (.ok none, ["Gray Swan monitor failed: " ++ errMsg])
    | .response r => (.ok (some r), [])

/-- The `before_request` hook of the Gray Swan plugin. -/
def grayswanBeforeRequest (cfg : GrayswanGuardrailConfig) (envKey : Option String)
    (event : BeforeRequestEvent) (outcome : GrayswanOutcome) : HookOutcome × List String :=
  let stageCfg := resolveStageConfig cfg.stages .before_request
  if !isStageEnabled (stageCfg.map (fun s => s.toBaseStageConfig)) then (.passthrough, [])
  else if jsTrim event.prompt = "" then (.passthrough, [])
  else
    let includeHistory := stageCfg.bind (fun s => s.includeHistory) ≠ some false
    let messages : List GrayswanMonitorMessage :=
      if includeHistory then
        toGrayswanMessages event.messages ++ [makeGrayswanMessage .user (jsTrim event.prompt)]
      else [makeGrayswanMessage .user (jsTrim event.prompt)]
    if messages.isEmpty then (.passthrough, [])
    else
      match callGrayswanMonitor cfg envKey outcome with
      | (.error _, logs) =>
        (.blockResponse "Request blocked because Gray Swan guardrail failed.", logs)
      | (.ok none, logs) => (.passthrough, logs)
      | (.ok (some response), logs) =>
        let evaluation := evaluateGrayswanResponse response
        let threshold := resolveGrayswanThreshold cfg stageCfg
        let flagged := shouldBlockByEvaluation evaluation threshold
          (resolveBlockOnMutation .before_request stageCfg)
          (resolveBlockOnIpi .before_request stageCfg)
        if !flagged then (.passthrough, logs)
        else if stageCfg.bind (fun s => s.mode) = some .monitor then (.passthrough, logs)
        else
          (.blockResponse (formatGrayswanViolationMessage evaluation "input query"), logs)

/-! ### Spec-side definitions

Definitions written from the wording of the claims (never from the source),
used to compare claimed behavior against the embedded code. -/

/-- Claim C9 as worded: a block contributes its `text` field when its `type`
is `"text"` or it has no type; other blocks are skipped; the contributions
are joined by newline. -/
def claimedBlockText (item : JValue) : Option String :=
  match item with
  | .obj fields =>
    match jlookupOpt fields "type" with
    | some (.str t) =>
      if t = "text" then
        some (match jlookup fields "text" with | .str u => u | _ => "")
      else none
    | some _ => none
    | none => some (match jlookup fields "text" with | .str u => u | _ => "")
  | _ => none

/-- Claim C9 as worded (see `claimedBlockText`). -/
def claimedExtractText (content : JValue) : String :=
  match content with
  | .str s => s
  | .arr items => joinSep "\n" (items.filterMap claimedBlockText)
  | _ => ""

/-- Amended C9: as the claim, except a block whose `text` is empty or not a
string contributes nothing at all (no empty joined segment), and a falsy
`type` counts as absent. -/
def amendedItemText (item : JValue) : Option String :=
  match item with
  | .obj fields =>
    if typedNonTextB fields then none
    else
      match jlookup fields "text" with
      | .str t => if t = "" then none else some t
      | _ => none
  | _ => none

/-- Amended C9 (see `amendedItemText`). -/
def amendedExtractText (content : JValue) : String :=
  match content with
  | .str s => s
  | .arr items => joinSep "\n" (items.filterMap amendedItemText)
  | _ => ""

/-- Claim C8 as worded: the stage-level threshold when present and finite;
otherwise the instance-level threshold when present and finite; otherwise the
default 0.5. -/
def claimedGrayswanThreshold (cfg : GrayswanGuardrailConfig)
    (stage : Option GrayswanStageConfig) : ℚ :=
  match stage.bind (fun s => s.violationThreshold) with
  | some (.val q) => q
  | _ =>
    match cfg.violationThreshold with
    | some (.val q) => q
    | _ => 1/2

/-! ### Concrete inputs for counterexamples and witnesses -/

def c2Result : JValue := .obj [("content", .arr []), ("details", .obj [("existing", .str "data")])]

def c3Result : JValue :=
  .obj [("content", .arr [textBlock "original"]), ("details", .obj [("a", .str "1")])]

def c7Result : JValue := .obj [("content", .arr []), ("details", .obj [("key", .str "value")])]

def c8Cfg : GrayswanGuardrailConfig := { violationThreshold := some (.val (1/4)) }

def c8Stage : GrayswanStageConfig := { violationThreshold := some .nan }

def c9Content : JValue := .arr [textBlock "a", textBlock "", textBlock "b"]

def c1Cfg : SafeguardConfig := { stages := some { beforeRequest := some {} } }

def c1CfgClosed : SafeguardConfig :=
  { failOpen := some false, stages := some { beforeRequest := some {} } }

def c1Event : BeforeRequestEvent := { prompt := "hello", messages := [] }

def c10Cfg : SafeguardConfig := { stages := some { afterResponse := some {} } }

def c10Event : AfterResponseEvent :=
  { assistantTexts := [], lastAssistant := some (.obj [("content", .str "hello")]), messages := [] }

def c10Outcome : ModelCallOutcome := .success "\x7b\"violation\": 1\x7d"

def c10EmptyEvent : BeforeRequestEvent := { prompt := "   ", messages := [] }

/-! ### Helper lemmas -/

theorem jlookup_objSetFields_self (fs : List (String × JValue)) (k : String) (v : JValue) :
    jlookup (objSetFields fs k v) k = v := by
  induction fs with
  | nil => simp [objSetFields, jlookup]
  | cons hd tl ih =>
    rcases hd with ⟨k0, v0⟩
    by_cases h : k0 = k <;> simp [objSetFields, jlookup, h, ih]

theorem jlookup_objSetFields_other (fs : List (String × JValue)) (k : String) (v : JValue)
    (key : String) (h : key ≠ k) :
    jlookup (objSetFields fs k v) key = jlookup fs key := by
  induction fs with
  | nil => simp [objSetFields, jlookup, Ne.symm h]
  | cons hd tl ih =>
    rcases hd with ⟨k0, v0⟩
    by_cases h0 : k0 = k
    · subst h0
      simp [objSetFields, jlookup, Ne.symm h]
    · simp [objSetFields, jlookup, h0, ih]

/-! ### Claim C4 -/

/-- C4: for every stage and stage config, `resolveBlockMode` returns the
config's `blockMode` when it is set; otherwise it returns `append` if and
only if the stage is `after_tool_call`, and `replace` for every other
stage. -/
theorem resolveBlockMode_spec :
    ∀ (stage : GuardrailStage) (stageCfg : Option BaseStageConfig),
      (∀ bm, stageCfg.bind (fun c => c.blockMode) = some bm →
        resolveBlockMode stage stageCfg = bm) ∧
      (stageCfg.bind (fun c => c.blockMode) = none →
        ((resolveBlockMode stage stageCfg = .append ↔ stage = .after_tool_call) ∧
          (stage ≠ .after_tool_call → resolveBlockMode stage stageCfg = .replace))) := by
  intro stage stageCfg
  constructor
  · intro bm h
    simp [resolveBlockMode, h]
  · intro h
    constructor
    · by_cases hs : stage = GuardrailStage.after_tool_call <;>
        simp [resolveBlockMode, h, hs]
    · intro hs
      simp [resolveBlockMode, h, hs]

/-- Witness for C4: an explicit `blockMode` wins, and the defaults are
`append` for `after_tool_call` and `replace` elsewhere. -/
theorem resolveBlockMode_spec_witness :
    resolveBlockMode .before_request (some { blockMode := some .append }) = .append ∧
    resolveBlockMode .after_tool_call none = .append ∧
    resolveBlockMode .before_request none = .replace :=
  ⟨(resolveBlockMode_spec .before_request (some { blockMode := some .append })).1 _ rfl,
   ((resolveBlockMode_spec .after_tool_call none).2 rfl).1.mpr rfl,
   ((resolveBlockMode_spec .before_request none).2 rfl).2 (by decide)⟩

/-! ### Claim C5 -/

/-- C5: `resolveStageConfig` yields `none` exactly when the stage map or the
specific stage key is absent; `isStageEnabled` is false on `none`, true on
the empty config, and false precisely when `enabled` is the explicit
`false`. -/
theorem stage_config_resolution_spec :
    (∀ stage : GuardrailStage, resolveStageConfig (α := BaseStageConfig) none stage = none) ∧
    (∀ m : StagesMap BaseStageConfig,
      resolveStageConfig (some m) .before_request = m.beforeRequest ∧
      resolveStageConfig (some m) .before_tool_call = m.beforeToolCall ∧
      resolveStageConfig (some m) .after_tool_call = m.afterToolCall ∧
      resolveStageConfig (some m) .after_response = m.afterResponse) ∧
    isStageEnabled none = false ∧
    isStageEnabled (some {}) = true ∧
    (∀ c : BaseStageConfig, (isStageEnabled (some c) = false ↔ c.enabled = some false)) := by
  refine ⟨fun stage => by cases stage <;> rfl,
    fun m => ⟨rfl, rfl, rfl, rfl⟩, rfl, rfl, fun c => ?_⟩
  rcases c with ⟨e, _, _, _⟩
  rcases e with _ | b
  · simp [isStageEnabled]
  · cases b <;> simp [isStageEnabled]

/-! ### Claim C2 -/

/-- Counterexample to C2 as stated: in replace mode the resulting details map
does NOT contain only the `guardrailWarning` key — a pre-existing key
(`existing`) survives alongside it, exactly as the repository's own test
asserts. -/
theorem replaceToolResult_details_preserved_cex :
    jget (jget (replaceToolResultWithWarning c2Result "warning") "details") "existing"
      = JValue.str "data" ∧
    jget (jget (replaceToolResultWithWarning c2Result "warning") "details") "guardrailWarning"
      = JValue.str "warning" := ⟨rfl, rfl⟩

/-- C2 (amended): `replaceToolResultWithWarning` discards all existing
content blocks and returns a single text block containing only the warning;
its details map is the original details map (when that was a truthy object)
with `guardrailWarning` added and every pre-existing key preserved, and a
fresh map containing only `guardrailWarning` otherwise. -/
theorem replaceToolResultWithWarning_spec :
    ∀ (result : JValue) (warning : String),
      jget (replaceToolResultWithWarning result warning) "content"
        = .arr [textBlock warning] ∧
      (∀ fields dfields, result = .obj fields →
        jlookupOpt fields "details" = some (.obj dfields) →
        jget (replaceToolResultWithWarning result warning) "details" =
          .obj (objSetFields dfields "guardrailWarning" (.str warning)) ∧
        jlookup (objSetFields dfields "guardrailWarning" (.str warning)) "guardrailWarning" =
          .str warning ∧
        (∀ key, key ≠ "guardrailWarning" →
          jlookup (objSetFields dfields "guardrailWarning" (.str warning)) key =
            jlookup dfields key)) ∧
      (∀ fields, result = .obj fields → jlookupOpt fields "details" = none →
        jget (replaceToolResultWithWarning result warning) "details" =
          .obj [("guardrailWarning", .str warning)]) ∧
      (∀ fields d, result = .obj fields → jlookupOpt fields "details" = some d →
        (jsTruthy d && jsTypeofObject d) = false →
        jget (replaceToolResultWithWarning result warning) "details" =
          .obj [("guardrailWarning", .str warning)]) ∧
      ((match result with | JValue.obj _ => False | _ => True) →
        jget (replaceToolResultWithWarning result warning) "details" =
          .obj [("guardrailWarning", .str warning)]) := by
  intro result warning
  refine ⟨?_, ?_, ?_, ?_, ?_⟩
  · cases result <;> rfl
  · intro fields dfields hres hdet
    subst hres
    refine ⟨?_, jlookup_objSetFields_self dfields _ _, fun key hk =>
      jlookup_objSetFields_other dfields _ _ key hk⟩
    simp [replaceToolResultWithWarning, jget, jlookup, hdet, jsTruthy, jsTypeofObject]
  · intro fields hres hdet
    subst hres
    simp [replaceToolResultWithWarning, jget, jlookup, hdet, jsTruthy, jsTypeofObject]
  · intro fields d hres hdet hnt
    subst hres
    simp only [replaceToolResultWithWarning, jsTruthy, jsTypeofObject, hdet]
    cases d <;> simp_all [jget, jlookup, jsTruthy, jsTypeofObject]
  · intro hm
    cases result <;>
      first
        | exact hm.elim
        | simp [replaceToolResultWithWarning, jget, jlookup, jsTruthy, jsTypeofObject]

/-- Witness for the amended C2 at a result carrying an existing details
key. -/
theorem replaceToolResultWithWarning_spec_witness :
    jget (replaceToolResultWithWarning c2Result "warning") "content"
      = .arr [textBlock "warning"] ∧
    jget (replaceToolResultWithWarning c2Result "warning") "details"
      = .obj [("existing", .str "data"), ("guardrailWarning", .str "warning")] :=
  ⟨(replaceToolResultWithWarning_spec c2Result "warning").1,
   (((replaceToolResultWithWarning_spec c2Result "warning").2.1
      [("content", JValue.arr []), ("details", JValue.obj [("existing", JValue.str "data")])]
      [("existing", JValue.str "data")] rfl rfl).1).trans rfl⟩

/-! ### Claim C3 -/

/-- Counterexample to C3 as stated: append mode does NOT add a
`guardrailWarning` key to the existing details map — the input result has an
opaque details map, yet after `appendWarningToToolResult` the key reads as
`undefined`. -/
theorem appendWarning_no_guardrailWarning_cex :
    jget (jget (appendWarningToToolResult c3Result "warning") "details") "guardrailWarning"
      = JValue.undefined ∧
    jget c3Result "details" = JValue.obj [("a", JValue.str "1")] := ⟨rfl, rfl⟩

/-- C3 (amended): `appendWarningToToolResult` preserves all original content
blocks in order and appends exactly one new text block containing the
warning; every other field of the result — including its details map — passes
through unchanged, and no `guardrailWarning` key is added. -/
theorem appendWarningToToolResult_spec :
    ∀ (result : JValue) (warning : String) (fields : List (String × JValue)),
      result = .obj fields →
      jget (appendWarningToToolResult result warning) "content" =
        .arr ((match jget result "content" with | JValue.arr xs => xs | _ => []) ++
          [textBlock warning]) ∧
      (∀ key, key ≠ "content" →
        jget (appendWarningToToolResult result warning) key = jget result key) := by
  intro result warning fields hres
  subst hres
  constructor
  · simp [appendWarningToToolResult, jget, jlookup_objSetFields_self]
  · intro key hk
    simp [appendWarningToToolResult, jget, jlookup_objSetFields_other _ _ _ _ hk]

/-- Witness for the amended C3: the original block survives in front of the
warning block, and the details map is untouched. -/
theorem appendWarningToToolResult_spec_witness :
    jget (appendWarningToToolResult c3Result "warning") "content" =
      .arr [textBlock "original", textBlock "warning"] ∧
    jget (appendWarningToToolResult c3Result "warning") "details" =
      .obj [("a", .str "1")] :=
  ⟨((appendWarningToToolResult_spec c3Result "warning" _ rfl).1).trans rfl,
   ((appendWarningToToolResult_spec c3Result "warning" _ rfl).2 "details" (by decide)).trans rfl⟩

/-! ### Claim C9 -/

/-- Counterexample to C9 as stated: a well-formed text block whose `text` is
the empty string is dropped entirely by the code (no empty joined segment),
while the claim's wording would keep its (empty) text contribution. -/
theorem extractTextFromContent_empty_block_cex :
    extractTextFromContent c9Content = "a\nb" ∧ claimedExtractText c9Content = "a\n\nb" :=
  ⟨rfl, rfl⟩

theorem amendedItemText_cases (item : JValue) :
    (amendedItemText item = none ∧ contentItemText item = "") ∨
    (∃ t, amendedItemText item = some t ∧ contentItemText item = t ∧ t ≠ "") := by
  cases item <;> simp [amendedItemText, contentItemText]
  case obj fields =>
    by_cases hty : typedNonTextB fields = true
    · simp [hty]
    · cases htxt : jlookup fields "text" <;> simp [hty, htxt]
      next t => by_cases h0 : t = "" <;> simp [h0]

/-- C9 (amended): `extractTextFromContent` returns string content unchanged;
for a block array it joins, by newline, the `text` of every block whose
`type` is `"text"` or falsy and whose `text` is a non-empty string — blocks
with empty or missing text are skipped entirely — and any other content
yields the empty string. -/
theorem extractTextFromContent_spec :
    ∀ content : JValue, extractTextFromContent content = amendedExtractText content := by
  intro content
  cases content <;> simp [extractTextFromContent, amendedExtractText]
  case arr items =>
    congr 1
    induction items with
    | nil => rfl
    | cons hd tl ih =>
      rcases amendedItemText_cases hd with ⟨h1, h2⟩ | ⟨t, h1, h2, h3⟩
      · simp [List.filter_cons, List.filterMap_cons, h1, h2, ih]
      · simp [List.filter_cons, List.filterMap_cons, h1, h2, h3, ih]

/-! ### Claim C7 -/

/-- C7: `extractToolResultText` prefers the (trimmed) text extracted from
`result.content`; when that is empty it falls back to the JSON serialization
of `result.details`; when `details` is unavailable (`undefined`) it falls
back to the JSON serialization of the entire result; a failing serialization
degrades to the empty string, and `null`/`undefined` results yield the empty
string — the function is total and never raises. -/
theorem extractToolResultText_spec :
    (extractToolResultText JValue.null = "" ∧ extractToolResultText JValue.undefined = "") ∧
    (∀ result : JValue, result ≠ JValue.null → result ≠ JValue.undefined →
      (jsTrim (extractTextFromContent (jget result "content")) ≠ "" →
        extractToolResultText result = jsTrim (extractTextFromContent (jget result "content"))) ∧
      (jsTrim (extractTextFromContent (jget result "content")) = "" →
        isUndefB (jget result "details") = false →
        extractToolResultText result = (jsonStringify (jget result "details")).getD "") ∧
      (jsTrim (extractTextFromContent (jget result "content")) = "" →
        isUndefB (jget result "details") = true →
        extractToolResultText result = (jsonStringify result).getD "")) := by
  refine ⟨⟨rfl, rfl⟩, fun result h1 h2 => ?_⟩
  cases result <;> first
    | exact absurd rfl h1
    | exact absurd rfl h2
    | refine ⟨fun hc => ?_, fun hc hd => ?_, fun hc hd => ?_⟩ <;>
        simp_all [extractToolResultText]

/-- Witness for C7: the details-serialization branch at the repo's own test
input (content extracts to empty, details present). -/
theorem extractToolResultText_spec_witness :
    extractToolResultText c7Result = "\x7b\"key\":\"value\"\x7d" :=
  (((extractToolResultText_spec.2 c7Result (fun h => JValue.noConfusion h)
    (fun h => JValue.noConfusion h)).2.1) rfl rfl).trans rfl

/-! ### Claim C8 -/

/-- Counterexample to C8 as stated: a stage-level `violationThreshold` of NaN
is not nullish, so it shadows the finite instance-level value 1/4 — and being
non-finite it then forces the hardcoded default 0.5. The claim would fall
back to the instance-level 1/4. -/
theorem resolveGrayswanThreshold_nan_cex :
    resolveGrayswanThreshold c8Cfg (some c8Stage) = 1/2 ∧
    claimedGrayswanThreshold c8Cfg (some c8Stage) = 1/4 ∧
    (1/2 : ℚ) ≠ 1/4 := by
  refine ⟨?_, ?_, by norm_num⟩
  · simp [resolveGrayswanThreshold, c8Cfg, c8Stage, grayswanDefaultThreshold, Option.orElse]
  · simp [claimedGrayswanThreshold, c8Cfg, c8Stage]

/-- C8 (amended): the threshold is selected by nullish coalescing —
`stage?.violationThreshold ?? cfg.violationThreshold` — so a stage-level
value shadows the instance-level one even when it is NaN or infinite; when
the selected value is a finite number the result is that value clamped to
[0, 1], and otherwise (no value, NaN, or an infinity) the result is the
hardcoded default 0.5. -/
theorem resolveGrayswanThreshold_spec :
    ∀ (cfg : GrayswanGuardrailConfig) (stage : Option GrayswanStageConfig),
      (∀ q, stage.bind (fun s => s.violationThreshold) = some (.val q) →
        resolveGrayswanThreshold cfg stage = min 1 (max 0 q)) ∧
      (∀ v, stage.bind (fun s => s.violationThreshold) = some v → (∀ q, v ≠ .val q) →
        resolveGrayswanThreshold cfg stage = 1/2) ∧
      (stage.bind (fun s => s.violationThreshold) = none →
        (∀ q, cfg.violationThreshold = some (.val q) →
          resolveGrayswanThreshold cfg stage = min 1 (max 0 q)) ∧
        (cfg.violationThreshold = none → resolveGrayswanThreshold cfg stage = 1/2) ∧
        (∀ v, cfg.violationThreshold = some v → (∀ q, v ≠ .val q) →
          resolveGrayswanThreshold cfg stage = 1/2)) := by
  intro cfg stage
  refine ⟨fun q h => ?_, fun v h hnv => ?_, fun h => ⟨fun q hc => ?_, fun hc => ?_,
    fun v hc hnv => ?_⟩⟩
  · simp [resolveGrayswanThreshold, h, Option.orElse]
  · cases v <;> simp [resolveGrayswanThreshold, h, Option.orElse, grayswanDefaultThreshold]
    exact absurd rfl (hnv _)
  · simp [resolveGrayswanThreshold, h, hc, Option.orElse]
  · simp [resolveGrayswanThreshold, h, hc, Option.orElse, grayswanDefaultThreshold]
  · cases v <;> simp [resolveGrayswanThreshold, h, hc, Option.orElse, grayswanDefaultThreshold]
    exact absurd rfl (hnv _)

/-- Witness for the amended C8: a finite stage value is clamped into [0, 1];
with no stage value a finite instance value is used; with neither, 0.5. -/
theorem resolveGrayswanThreshold_spec_witness :
    resolveGrayswanThreshold {} (some { violationThreshold := some (.val 2) }) = 1 ∧
    resolveGrayswanThreshold c8Cfg none = 1/4 ∧
    resolveGrayswanThreshold {} none = 1/2 := by
  refine ⟨((resolveGrayswanThreshold_spec {}
      (some { violationThreshold := some (.val 2) })).1 2 rfl).trans (by norm_num), ?_, ?_⟩
  · exact (((resolveGrayswanThreshold_spec c8Cfg none).2.2 rfl).1 (1/4) rfl).trans (by norm_num)
  · exact ((resolveGrayswanThreshold_spec {} none).2.2 rfl).2.1 rfl

/-! ### Claim C6 -/

/-- Counterexample to C6 as stated: the word `unsafe` is one of the claim's
recognizable violation markers, yet `parseSafeguardResponse` (json format, on
an unparseable response) ignores it and defaults to a safe verdict — its
fallback only scans for `violation: 1/true` style substrings. -/
theorem parseSafeguardResponse_unsafe_word_cex :
    (parseSafeguardResponse "the content is unsafe" "json").safe = true ∧
    segOccurs ("unsafe".data) (jsToLower "the content is unsafe").data = true := ⟨rfl, rfl⟩

/-- C6 (amended): each parser recognizes its own marker set. When the
extracted JSON candidate fails to parse (or parses to `null`, whose property
access throws), `parseSafeguardResponse` in a JSON format returns unsafe
exactly when the trimmed raw text matches `violation["\x27]?\s*:\s*(1|true)`
(case-insensitively) or equals `"1"`, and defaults to safe otherwise. When
the first line is neither `safe` nor `unsafe`, `parseLlamaGuardResponse`
returns unsafe exactly when the lowercased raw text contains `unsafe`, and
defaults to safe otherwise. -/
theorem response_fallback_marker_spec :
    (∀ (s f : String), f ≠ "binary" →
      (jsonParseJS (extractJsonCandidate (jsTrim s)) = none ∨
        jsonParseJS (extractJsonCandidate (jsTrim s)) = some JValue.null) →
      ((parseSafeguardResponse s f).safe = false ↔
        (hasViolationRegexMatch (jsTrim s) = true ∨ jsTrim s = "1"))) ∧
    (∀ s : String, llamaFirstLine s ≠ "safe" → llamaFirstLine s ≠ "unsafe" →
      ((parseLlamaGuardResponse s).safe = false ↔
        segOccurs ("unsafe".data) (jsToLower s).data = true)) := by
  constructor
  · intro s f hf hd
    rcases hd with h | h <;>
      cases hm : hasViolationRegexMatch (jsTrim s) <;>
        simp [parseSafeguardResponse, hf, h, safeguardFallback, hm]
  · intro s h1 h2
    cases hseg : segOccurs ("unsafe".data) (jsToLower s).data <;>
      simp [parseLlamaGuardResponse, h1, h2, hseg]

/-- Witness for the amended C6: a marker-bearing unparseable safeguard
response is flagged unsafe, and a malformed Llama Guard response containing
`unsafe` is flagged unsafe. -/
theorem response_fallback_marker_spec_witness :
    (parseSafeguardResponse "violation: 1" "json").safe = false ∧
    (parseLlamaGuardResponse "I think it is unsafe here").safe = false :=
  ⟨(response_fallback_marker_spec.1 "violation: 1" "json" (by decide) (Or.inl rfl)).mpr
      (Or.inl rfl),
   (response_fallback_marker_spec.2 "I think it is unsafe here" (by decide) (by decide)).mpr rfl⟩

/-! ### Claim C1 -/

/-- C1: for every stage handler (the four GPT-OSS-Safeguard hooks and the
Gray Swan `before_request` hook), when the evaluator call fails: with
`failOpen` not explicitly `false` (the default), the handler returns no block
directive and no mutation — the bare passthrough, distinct from a safe
verdict — and the failure warning is logged; with `failOpen === false`, it
returns the stage's block directive carrying the generic guardrail-failure
message. -/
theorem failOpen_policy_spec :
    (∀ (cfg : SafeguardConfig) (event : BeforeRequestEvent) (e : String),
      isStageEnabled (resolveStageConfig cfg.stages .before_request) = true →
      jsTrim event.prompt ≠ "" →
      (cfg.failOpen ≠ some false →
        safeguardBeforeRequest cfg event (.failure e) =
          (.passthrough, ["GPT-OSS-Safeguard call failed: " ++ e])) ∧
      (cfg.failOpen = some false →
        safeguardBeforeRequest cfg event (.failure e) =
          (.blockResponse "Request blocked because GPT-OSS-Safeguard guardrail failed.",
            ["GPT-OSS-Safeguard call failed: " ++ e]))) ∧
    (∀ (cfg : SafeguardConfig) (event : BeforeToolCallEvent) (e : String),
      isStageEnabled (resolveStageConfig cfg.stages .before_tool_call) = true →
      (cfg.failOpen ≠ some false →
        safeguardBeforeToolCall cfg event (.failure e) =
          (.passthrough, ["GPT-OSS-Safeguard call failed: " ++ e])) ∧
      (cfg.failOpen = some false →
        safeguardBeforeToolCall cfg event (.failure e) =
          (.blockReason "Tool call blocked because GPT-OSS-Safeguard guardrail failed.",
            ["GPT-OSS-Safeguard call failed: " ++ e]))) ∧
    (∀ (cfg : SafeguardConfig) (event : AfterToolCallEvent) (e : String),
      isStageEnabled (resolveStageConfig cfg.stages .after_tool_call) = true →
      jsTrim (extractToolResultText event.result) ≠ "" →
      (cfg.failOpen ≠ some false →
        safeguardAfterToolCall cfg event (.failure e) =
          (.passthrough, ["GPT-OSS-Safeguard call failed: " ++ e])) ∧
      (cfg.failOpen = some false →
        safeguardAfterToolCall cfg event (.failure e) =
          (.blockResult (replaceToolResultWithWarning event.result
              "Tool result blocked because GPT-OSS-Safeguard guardrail failed."),
            ["GPT-OSS-Safeguard call failed: " ++ e]))) ∧
    (∀ (cfg : SafeguardConfig) (event : AfterResponseEvent) (e : String),
      isStageEnabled (resolveStageConfig cfg.stages .after_response) = true →
      effectiveAssistantText event ≠ "" →
      (cfg.failOpen ≠ some false →
        safeguardAfterResponse cfg event (.failure e) =
          (.passthrough, ["GPT-OSS-Safeguard call failed: " ++ e])) ∧
      (cfg.failOpen = some false →
        safeguardAfterResponse cfg event (.failure e) =
          (.blockResponse "Response blocked because GPT-OSS-Safeguard guardrail failed.",
            ["GPT-OSS-Safeguard call failed: " ++ e]))) ∧
    (∀ (cfg : GrayswanGuardrailConfig) (envKey : Option String) (event : BeforeRequestEvent)
        (e : String) (k : String),
      resolveGrayswanApiKey cfg envKey = some k →
      isStageEnabled ((resolveStageConfig cfg.stages .before_request).map
        (fun s => s.toBaseStageConfig)) = true →
      jsTrim event.prompt ≠ "" →
      (cfg.failOpen ≠ some false →
        grayswanBeforeRequest cfg envKey event (.failure e) =
          (.passthrough, ["Gray Swan monitor failed: " ++ e])) ∧
      (cfg.failOpen = some false →
        grayswanBeforeRequest cfg envKey event (.failure e) =
          (.blockResponse "Request blocked because Gray Swan guardrail failed.",
            ["Gray Swan monitor failed: " ++ e]))) := by
  refine ⟨?_, ?_, ?_, ?_, ?_⟩
  · intro cfg event e hEn hPr
    constructor <;> intro hF <;>
      simp [safeguardBeforeRequest, callSafeguard, hEn, hPr, hF]
  · intro cfg event e hEn
    constructor <;> intro hF <;>
      simp [safeguardBeforeToolCall, callSafeguard, hEn, hF]
  · intro cfg event e hEn hTx
    constructor <;> intro hF <;>
      simp [safeguardAfterToolCall, callSafeguard, hEn, hTx, hF]
  · intro cfg event e hEn hTx
    constructor <;> intro hF <;>
      simp [safeguardAfterResponse, callSafeguard, hEn, hTx, hF]
  · intro cfg envKey event e k hk hEn hPr
    constructor <;> intro hF <;>
      simp [grayswanBeforeRequest, callGrayswanMonitor, hk, hEn, hPr, hF] <;>
      (split <;> simp)

/-- Witness for C1: the `before_request` safeguard hook at a concrete enabled
config and prompt, with a throwing evaluator, in both fail-open (default) and
fail-closed modes. -/
theorem failOpen_policy_spec_witness :
    safeguardBeforeRequest c1Cfg c1Event (.failure "boom") =
      (.passthrough, ["GPT-OSS-Safeguard call failed: boom"]) ∧
    safeguardBeforeRequest c1CfgClosed c1Event (.failure "boom") =
      (.blockResponse "Request blocked because GPT-OSS-Safeguard guardrail failed.",
        ["GPT-OSS-Safeguard call failed: boom"]) :=
  ⟨(failOpen_policy_spec.1 c1Cfg c1Event "boom" rfl (by decide)).1 (by decide),
   (failOpen_policy_spec.1 c1CfgClosed c1Event "boom" rfl (by decide)).2 rfl⟩

/-! ### Claim C10 -/

/-- Counterexample to C10 as stated: the `after_response` stage's joined
assistant text is empty, yet the handler does not return undefined — the code
falls back to the `lastAssistant` message's text and blocks on it. -/
theorem afterResponse_lastAssistant_fallback_cex :
    (safeguardAfterResponse c10Cfg c10Event c10Outcome).1 ≠ HookOutcome.passthrough ∧
    jsTrim (joinSep "\n" c10Event.assistantTexts) = "" := by
  refine ⟨fun h => ?_, rfl⟩
  rw [show (safeguardAfterResponse c10Cfg c10Event c10Outcome).1 =
      HookOutcome.blockResponse (formatSafeguardViolationMessage
        { safe := false, violation := some true } "model response") from rfl] at h
  exact HookOutcome.noConfusion h

/-- C10 (amended): on the stages with an empty-content short-circuit
(`before_request` and `after_tool_call` of the safeguard plugin, the Gray
Swan `before_request` hook, and `after_response` once the fallback to
`lastAssistant` text is taken into account), empty focal content makes the
handler return undefined — no block directive, no mutation, no log — for
every evaluator outcome, so empty content is never blocked even by an
always-blocking evaluator. -/
theorem empty_content_passthrough_spec :
    (∀ (cfg : SafeguardConfig) (event : BeforeRequestEvent) (outcome : ModelCallOutcome),
      jsTrim event.prompt = "" →
      safeguardBeforeRequest cfg event outcome = (.passthrough, [])) ∧
    (∀ (cfg : SafeguardConfig) (event : AfterToolCallEvent) (outcome : ModelCallOutcome),
      jsTrim (extractToolResultText event.result) = "" →
      safeguardAfterToolCall cfg event outcome = (.passthrough, [])) ∧
    (∀ (cfg : SafeguardConfig) (event : AfterResponseEvent) (outcome : ModelCallOutcome),
      effectiveAssistantText event = "" →
      safeguardAfterResponse cfg event outcome = (.passthrough, [])) ∧
    (∀ (cfg : GrayswanGuardrailConfig) (envKey : Option String) (event : BeforeRequestEvent)
        (outcome : GrayswanOutcome),
      jsTrim event.prompt = "" →
      grayswanBeforeRequest cfg envKey event outcome = (.passthrough, [])) := by
  refine ⟨?_, ?_, ?_, ?_⟩
  · intro cfg event outcome h
    simp [safeguardBeforeRequest, h]
  · intro cfg event outcome h
    simp [safeguardAfterToolCall, h]
  · intro cfg event outcome h
    simp [safeguardAfterResponse, h]
  · intro cfg envKey event outcome h
    simp [grayswanBeforeRequest, h]

/-- Witness for the amended C10: a whitespace-only prompt passes through
unchanged even when the evaluator outcome would flag a violation. -/
theorem empty_content_passthrough_spec_witness :
    safeguardBeforeRequest c1Cfg c10EmptyEvent c10Outcome = (.passthrough, []) :=
  empty_content_passthrough_spec.1 c1Cfg c10EmptyEvent c10Outcome rfl

end OpenClaw
